import Mathlib

/-
  Verification of the content-supply core of the pop node
  (package supply: regions, dispatch controller, request network handler,
  authorization validator, content index).

  Pure shallow embedding: peer identities and CIDs are abstracted as
  naturals, Go maps become association lists or functions, and the
  effectful callbacks (event subscriptions, stream sends) are modelled as
  pure functions from an explicit environment describing the outcome of
  each external call.
-/

namespace Pop

/-- Peer identity (libp2p peer.ID), abstracted. -/
abbrev PeerID := Nat

/-- Content identifier (ipfs cid.Cid), abstracted. -/
abbrev Cid := Nat

/-! ## Region table (src/supply/regions.go) -/

/-- RegionCode defines a subnetwork code (Go uint64). -/
abbrev RegionCode := Nat

/-- GlobalRegion region is a free global network for anyone to try the network. -/
def GlobalRegion : RegionCode := 0

/-- AsiaRegion is a specific region to connect caches in the Asian area. -/
def AsiaRegion : RegionCode := 1

/-- AfricaRegion is a specific region in the African geographic area. -/
def AfricaRegion : RegionCode := 2

/-- SouthAmericaRegion is a specific region. -/
def SouthAmericaRegion : RegionCode := 3

/-- NorthAmericaRegion is a specific region to connect caches in the North American area. -/
def NorthAmericaRegion : RegionCode := 4

/-- EuropeRegion is a specific region to connect caches in the European area. -/
def EuropeRegion : RegionCode := 5

/-- OceaniaRegion is a specific region. -/
def OceaniaRegion : RegionCode := 6

/-- CustomRegion is a user defined region (Go math.MaxUint64). -/
def CustomRegion : RegionCode := 2 ^ 64 - 1

/-- Region represents a CDN subnetwork. -/
structure Region where
  Name : String
  Code : RegionCode
  PPB : Int
  StorageMiners : List String
deriving Repr, DecidableEq

/-- The Asia preset region. -/
def asia : Region :=
  { Name := "Asia"
    Code := AsiaRegion
    PPB := 1
    StorageMiners := [
      "f0159961",
      "f0242152",
      "f0225676",
      "f0165539",
      "f0216138",
      "f01272"
    ] }

/-- The Africa preset region. -/
def africa : Region :=
  { Name := "Africa"
    Code := AfricaRegion
    PPB := 1
    StorageMiners := [] }

/-- The SouthAmerica preset region. -/
def southAmerica : Region :=
  { Name := "SouthAmerica"
    Code := SouthAmericaRegion
    PPB := 1
    StorageMiners := [] }

/-- The NorthAmerica preset region. -/
def northAmerica : Region :=
  { Name := "NorthAmerica"
    Code := NorthAmericaRegion
    PPB := 1
    StorageMiners := [
      "f02301",
      "f03223",
      "f019104",
      "f02401",
      "f02387",
      "f09848",
      "f08399",
      "f010088",
      "f064218",
      "f02540",
      "f015927",
      "f0135078",
      "f019104",
      "f047419",
      "f01278",
      "f010617",
      "f01247",
      "f022142",
      "f019279"
    ] }

/-- The Europe preset region. -/
def europe : Region :=
  { Name := "Europe"
    Code := EuropeRegion
    PPB := 1
    StorageMiners := [
      "f01240",
      "f01234",
      "f022352",
      "f099608",
      "f02576",
      "f023467",
      "f03624",
      "f062353",
      "f081323",
      "f08403",
      "f010446",
      "f01277",
      "f022163"
    ] }

/-- The Oceania preset region. -/
def oceania : Region :=
  { Name := "Oceania"
    Code := OceaniaRegion
    PPB := 1
    StorageMiners := ["f014365"] }

/-- The Global preset region.  In the source its miner list is
`append(northAmerica.StorageMiners, append(europe.StorageMiners, oceania.StorageMiners...)...)`. -/
def global : Region :=
  { Name := "Global"
    Code := GlobalRegion
    PPB := 0
    StorageMiners :=
      northAmerica.StorageMiners ++ (europe.StorageMiners ++ oceania.StorageMiners) }

/-- Regions is a list of preset regions (the Go map, as an association list). -/
def Regions : List (String × Region) :=
  [("Global", global), ("Asia", asia), ("Africa", africa),
   ("SouthAmerica", southAmerica), ("NorthAmerica", northAmerica),
   ("Europe", europe), ("Oceania", oceania)]

/-- Association-list lookup used for the Go maps in this development:
returns the value of the first entry whose key matches. -/
def lookupEntry {α β : Type} [DecidableEq α] : List (α × β) → α → Option β
  | [], _ => none
  | e :: es, k => if e.1 = k then some e.2 else lookupEntry es k

/-- ParseRegions converts region names to region structs.  A name missing
from the preset map yields a custom region with that name (in Go the map
yields the zero value, detected by an empty name). -/
def ParseRegions (list : List String) : List Region :=
  list.map fun rstring =>
    match lookupEntry Regions rstring with
    | some r => r
    | none => { Name := rstring, Code := CustomRegion, PPB := 0, StorageMiners := [] }

/-! ## Protocols and wire messages (src/unnamed/part_000) -/

/-- MaxReceiverCount is the maximum number of peers one can dispatch to.
The source does not allow tweaking that number manually so users are not
tempted to DDOS the network. -/
def MaxReceiverCount : Nat := 7

/-- RequestProtocol labels the network for announcing new content. -/
def RequestProtocol : String := "/myel/supply/dispatch/1.0"

/-- One protocol identifier per region: `fmt.Sprintf("%s/%s", proto, r.Name)`. -/
def protoRegions (proto : String) (regions : List Region) : List String :=
  regions.map fun r => proto ++ "/" ++ r.Name

/-- Request describes the content to pull (payload CID and advisory size). -/
structure Request where
  PayloadCID : Cid
  Size : Nat
deriving Repr, DecidableEq

/-- PRecord is a provider to cid mapping recording who stores what content. -/
structure PRecord where
  Provider : PeerID
  PayloadCID : Cid
deriving Repr, DecidableEq

/-! ## Content index (Store)

The Store implementation file (store.go of package supply) is not among
the provided sources; only its callers are.  Its operations are modelled
from the spec. -/

/-- Label key for the owning block-store identifier, as a decimal string. -/
def KStoreID : String := "storeId"

/-- Label key for the advertised payload size. -/
def KSize : String := "size"

/-- ContentRecord is the label map stored per payload CID. -/
structure ContentRecord where
  Labels : List (String × String)
deriving Repr, DecidableEq

/-- Error kind of a content-index read. -/
inductive StoreErr
  | notFound
deriving Repr, DecidableEq

/-- Modelled from the spec: the Content Index, a mapping from payload CID
to ContentRecord under a private namespace (store.go is missing from the
sources). -/
structure Store where
  records : List (Cid × ContentRecord)
deriving Repr, DecidableEq

/-- Modelled from the spec: `put(cid, record)` is an idempotent overwrite. -/
def Store.PutRecord (st : Store) (k : Cid) (r : ContentRecord) : Store :=
  ⟨(k, r) :: st.records.filter fun e => decide (e.1 ≠ k)⟩

/-- Modelled from the spec: `get(cid) -> record | not-found`. -/
def Store.GetRecord (st : Store) (k : Cid) : Except StoreErr ContentRecord :=
  match lookupEntry st.records k with
  | some r => .ok r
  | none => .error .notFound

/-- Modelled from the spec: `remove(cid)` succeeds whether or not the
record existed. -/
def Store.RemoveRecord (st : Store) (k : Cid) : Store :=
  ⟨st.records.filter fun e => decide (e.1 ≠ k)⟩

/-! ## IPLD selectors (AllSelector) -/

/-- Recursion limit of a recursive selector. -/
inductive RecursionLimit
  | limitNone
  | limitDepth (n : Nat)
deriving Repr, DecidableEq

/-- Abstract syntax of the ipld selector specs built by the source. -/
inductive Selector
  | exploreRecursiveEdge
  | exploreAll (inner : Selector)
  | exploreRecursive (limit : RecursionLimit) (seq : Selector)
deriving Repr, DecidableEq

/-- AllSelector is the default selector that reaches all the blocks:
recursion without limit, exploring every link as a recursive edge. -/
def AllSelector : Selector :=
  .exploreRecursive .limitNone (.exploreAll .exploreRecursiveEdge)

/-! ## Data-transfer events -/

/-- Data-transfer event codes (only Error is inspected by this layer;
the remaining codes are collapsed into representatives). -/
inductive EventCode
  | error
  | complete
  | cancel
  | other
deriving Repr, DecidableEq

/-- Data-transfer channel statuses (only Completed is inspected by this
layer; the remaining statuses are collapsed into representatives). -/
inductive TransferStatus
  | requested
  | ongoing
  | completed
  | failed
  | cancelled
  | other
deriving Repr, DecidableEq

/-- A data-transfer event as seen by a subscriber. -/
structure Event where
  code : EventCode
deriving Repr, DecidableEq

/-- The channel state accompanying a data-transfer event: the fields the
subscriptions in this layer read. -/
structure ChannelState where
  status : TransferStatus
  baseCID : Cid
  recipient : PeerID
deriving Repr, DecidableEq

/-! ## Authorization validator (src/unnamed/part_000, Validator) -/

/-- peer.Set insertion: adds the peer when absent (libp2p peer.Set.Add). -/
def peerSetAdd (s : List PeerID) (p : PeerID) : List PeerID :=
  if p ∈ s then s else p :: s

/-- Verdict of a pull validation: nil error (allow), or one of the two
error messages returned by ValidatePull. -/
inductive PullVerdict
  | allow
  | unknownCid
  | notAuthorized
deriving Repr, DecidableEq

/-- Validator holds the per-CID sets of peers authorized to pull content
(the Go `map[cid.Cid]*peer.Set`, as a function). -/
structure Validator where
  auth : Cid → Option (List PeerID)

/-- Authorize adds a peer to the set for a CID, lazily creating the set. -/
def Validator.Authorize (v : Validator) (k : Cid) (p : PeerID) : Validator :=
  match v.auth k with
  | some set => ⟨fun kk => if kk = k then some (peerSetAdd set p) else v.auth kk⟩
  | none => ⟨fun kk => if kk = k then some (peerSetAdd [] p) else v.auth kk⟩

/-- ValidatePull allows a pull when an authorization entry exists for the
base CID and contains the receiver; the voucher and selector arguments are
ignored, as in the source. -/
def Validator.ValidatePull (v : Validator) (receiver : PeerID) (voucher : Request)
    (baseCid : Cid) (sel : Selector) : PullVerdict :=
  match v.auth baseCid with
  | none => .unknownCid
  | some set => if receiver ∈ set then .allow else .notAuthorized

/-! ## Inbound request handler (src/unnamed/part_000, handler.HandleRequest) -/

/-- Outcome of the external calls HandleRequest performs, fixed up front:
the result of reading the request from the stream (none on decode error),
the fresh identifier the multistore vends, and whether the index write and
the pull open succeed. -/
structure HandlerEnv where
  readResult : Option Request
  nextStoreID : Nat
  putOk : Bool
  pullOk : Bool

/-- A pull data channel as opened by OpenPullDataChannel: destination
peer, root CID and selector. -/
structure PullChannel where
  dest : PeerID
  root : Cid
  sel : Selector
deriving Repr, DecidableEq

/-- Observable effects of one HandleRequest run: the content index after
the run, the pull channel opened (if any), and whether the stream was
closed (the deferred Close). -/
structure HandlerOutcome where
  index : Store
  pull : Option PullChannel
  closed : Bool
deriving Repr, DecidableEq

/-- HandleRequest pulls the blocks from the peer upon receiving a request:
read the request, allocate a fresh store identifier, write the content
record, open the pull channel; each failure returns early, and the
deferred stream close always runs. -/
def handler.HandleRequest (env : HandlerEnv) (st : Store) (sender : PeerID) : HandlerOutcome :=
  match env.readResult with
  | none => ⟨st, none, true⟩
  | some req =>
    let storeID := env.nextStoreID
    if env.putOk then
      let st2 := st.PutRecord req.PayloadCID
        ⟨[(KStoreID, Nat.repr storeID), (KSize, Nat.repr req.Size)]⟩
      if env.pullOk then
        ⟨st2, some ⟨sender, req.PayloadCID, AllSelector⟩, true⟩
      else
        ⟨st2, none, true⟩
    else
      ⟨st, none, true⟩

/-! ## Event subscriptions -/

/-- The subscription installed by New: upon an Error event whose recipient
is the local peer, remove the content record for the channel base CID. -/
def newSubscriber (hostID : PeerID) (store : Store) (event : Event)
    (channelState : ChannelState) : Store :=
  if event.code = .error ∧ channelState.recipient = hostID then
    store.RemoveRecord channelState.baseCID
  else
    store

/-- The subscription installed by Dispatch: on a Completed channel whose
base CID is the dispatched payload CID, emit a provider record for the
channel recipient; otherwise emit nothing. -/
def dispatchSubscriber (r : Request) (event : Event) (chState : ChannelState) :
    Option PRecord :=
  if chState.status = .completed then
    let root := chState.baseCID
    if root ≠ r.PayloadCID then
      none
    else
      some { Provider := chState.recipient, PayloadCID := root }
  else
    none

/-! ## Supply and dispatch (src/unnamed/part_000, Supply) -/

/-- A live connection of the host, as enumerated by Network().Conns(). -/
structure Conn where
  remotePeer : PeerID

/-- The peerstore protocol-support oracle: SupportsProtocols filters the
query list by this predicate (an errored query behaves like empty
support, as both take the same continue branch in the source). -/
structure Peerstore where
  supports : PeerID → String → Bool

/-- The peer host: local identity, current connections, peerstore. -/
structure Host where
  id : PeerID
  conns : List Conn
  peerstore : Peerstore

/-- Per-peer outcome of the external stream calls made by
sendAllRequests: whether NewRequestStream and WriteRequest succeed. -/
structure NetEnv where
  openOk : PeerID → Bool
  writeOk : PeerID → Bool

/-- ErrNoPeers when no peers are available to get or send supply to. -/
inductive SupplyError
  | noPeers
deriving Repr, DecidableEq

/-- Supply keeps track of the content stored and provided on the network:
the fields of the Go struct that the dispatch path reads. -/
structure Supply where
  h : Host
  regions : List Region
  store : Store
  validation : Validator

/-- The peers retained by the selection loop of selectProviders: one
entry per connection whose remote peer is not the local identity and
supports at least one region protocol. -/
def Supply.eligiblePeers (s : Supply) : List PeerID :=
  s.h.conns.filterMap fun pconn =>
    let pid := pconn.remotePeer
    if pid ≠ s.h.id then
      let protos := protoRegions RequestProtocol s.regions
      let supported := protos.filter fun pr => s.h.peerstore.supports pid pr
      if supported.length = 0 then none else some pid
    else
      none

/-- selectProviders: enumerate connections, keep protocol-compatible
non-self peers, fail with ErrNoPeers when none survive, truncate to
MaxReceiverCount otherwise. -/
def Supply.selectProviders (s : Supply) : Except SupplyError (List PeerID) :=
  let peers := s.eligiblePeers
  if peers.length = 0 then
    .error .noPeers
  else if peers.length > MaxReceiverCount then
    .ok (peers.take MaxReceiverCount)
  else
    .ok peers

/-- Per-peer result of one send in the fan-out. -/
inductive SendOutcome
  | openFailed
  | writeFailed
  | sent
deriving Repr, DecidableEq

/-- sendAllRequests: for each peer open a stream, write the request and
close; a failed open or write moves on to the next peer. -/
def Supply.sendAllRequests (net : NetEnv) (r : Request) (peers : List PeerID) :
    List (PeerID × SendOutcome) :=
  peers.map fun p =>
    if net.openOk p then
      if net.writeOk p then (p, .sent) else (p, .writeFailed)
    else
      (p, .openFailed)

/-- Response carries the count of peers messaged (the record channel and
unsubscribe handle are modelled by dispatchSubscriber above). -/
structure Response where
  Count : Nat
deriving Repr, DecidableEq

/-- Everything one Dispatch call does, as data: the response, the error
returned, the Authorize calls performed in order, the validator state
after them, and the per-peer sends of the fan-out. -/
structure DispatchOutcome where
  response : Response
  err : Option SupplyError
  authorizations : List (Cid × PeerID)
  validation : Validator
  sends : List (PeerID × SendOutcome)

/-- Dispatch: select providers; on failure return the error with a
zero-count response and no effects; otherwise authorize every provider
for the payload CID, set the count to the number of providers, and fan
the request out. -/
def Supply.Dispatch (s : Supply) (net : NetEnv) (r : Request) : DispatchOutcome :=
  match s.selectProviders with
  | .error e =>
      { response := { Count := 0 }
        err := some e
        authorizations := []
        validation := s.validation
        sends := [] }
  | .ok providers =>
      { response := { Count := providers.length }
        err := none
        authorizations := providers.map fun p => (r.PayloadCID, p)
        validation := providers.foldl (fun v p => v.Authorize r.PayloadCID p) s.validation
        sends := Supply.sendAllRequests net r providers }

/-- parseUint10 models Go strconv.ParseUint(s, 10, 64): a non-empty
all-digit string whose value fits 64 bits, otherwise failure. -/
def parseUint10 (str : String) : Option Nat :=
  let ds := str.data
  if ds = [] then
    none
  else if ds.all Char.isDigit then
    let n := ds.foldl (fun acc c => acc * 10 + (c.toNat - 48)) 0
    if n < 2 ^ 64 then some n else none
  else
    none

/-- Error kinds of GetStoreID, one per early return in the source. -/
inductive GetStoreIDError
  | recordNotFound
  | storeIDNotFound
  | parseFailed
deriving Repr, DecidableEq

/-- GetStoreID returns the StoreID of the store which has the given
content: read the record, read its storeId label, parse it as an unsigned
decimal integer. -/
def Supply.GetStoreID (s : Supply) (id : Cid) : Except GetStoreIDError Nat :=
  match s.store.GetRecord id with
  | .error _ => .error .recordNotFound
  | .ok rec =>
    match lookupEntry rec.Labels KStoreID with
    | none => .error .storeIDNotFound
    | some sid =>
      match parseUint10 sid with
      | none => .error .parseFailed
      | some storeID => .ok storeID

/-! ## Helper lemmas -/

/-- Looking a key up after filtering that key out finds nothing. -/
theorem lookupEntry_filter_ne {β : Type} (l : List (Cid × β)) (k : Cid) :
    lookupEntry (l.filter fun e => decide (e.1 ≠ k)) k = none := by
  induction l with
  | nil => rfl
  | cons e es ih =>
    simp only [ne_eq, decide_not] at ih ⊢
    rw [List.filter_cons]
    by_cases h : e.1 = k
    · simp [h, ih]
    · simp [h, lookupEntry, ih]

/-- Reading a record immediately after writing it returns that record. -/
theorem Store.getRecord_putRecord (st : Store) (k : Cid) (r : ContentRecord) :
    (st.PutRecord k r).GetRecord k = .ok r := by
  simp [Store.PutRecord, Store.GetRecord, lookupEntry]

/-- Reading a record immediately after removing it fails with not-found. -/
theorem Store.getRecord_removeRecord (st : Store) (k : Cid) :
    (st.RemoveRecord k).GetRecord k = .error .notFound := by
  unfold Store.RemoveRecord Store.GetRecord
  rw [lookupEntry_filter_ne]

/-- A peer is a member of a peer set it was just added to. -/
theorem mem_peerSetAdd_self (s : List PeerID) (p : PeerID) : p ∈ peerSetAdd s p := by
  unfold peerSetAdd
  by_cases h : p ∈ s <;> simp [h]

/-- The fan-out targets exactly the given peer list, in order, whatever
the per-peer stream outcomes are. -/
theorem sendAllRequests_targets (net : NetEnv) (r : Request) (peers : List PeerID) :
    (Supply.sendAllRequests net r peers).map Prod.fst = peers := by
  induction peers with
  | nil => rfl
  | cons p ps ih =>
    simp only [Supply.sendAllRequests, List.map_cons] at ih ⊢
    by_cases ho : net.openOk p = true
    · by_cases hw : net.writeOk p = true <;> simp [ho, hw, ih]
    · simp [ho, ih]

/-- Occurrence counting through a filterMap whose function hits `p`
exactly on the connections whose remote peer is `p`. -/
theorem count_filterMap_of (p : PeerID) (f : Conn → Option PeerID) (conns : List Conn)
    (h1 : ∀ c, c.remotePeer = p → f c = some p)
    (h2 : ∀ c, c.remotePeer ≠ p → f c ≠ some p) :
    (conns.filterMap f).count p = conns.countP fun c => decide (c.remotePeer = p) := by
  induction conns with
  | nil => rfl
  | cons c cs ih =>
    rw [List.filterMap_cons, List.countP_cons]
    by_cases hc : c.remotePeer = p
    · rw [h1 c hc]
      simp [List.count_cons, hc, ih]
    · cases hf : f c with
      | none => simp [hc, ih]
      | some q =>
        have hq : q ≠ p := by
          intro hqp
          exact h2 c hc (hqp ▸ hf)
        simp [List.count_cons, hc, hq, ih]

/-! ## Claim theorems -/

/-- C2: after Authorize(k, p), ValidatePull(k, p) allows; ValidatePull on
a CID with no authorization entry fails with the unknown-cid error; for a
peer q not in an existing entry for k it fails with the not-authorized
error; and ValidatePull allows iff an entry exists for the CID and
contains the receiver. -/
theorem validator_authorize_validatePull (v : Validator) (k : Cid) (p q : PeerID)
    (voucher : Request) (sel : Selector) :
    ((v.Authorize k p).ValidatePull p voucher k sel = .allow) ∧
    (v.auth k = none → v.ValidatePull q voucher k sel = .unknownCid) ∧
    (∀ set, v.auth k = some set → q ∉ set →
      v.ValidatePull q voucher k sel = .notAuthorized) ∧
    (v.ValidatePull q voucher k sel = .allow ↔
      ∃ set, v.auth k = some set ∧ q ∈ set) := by
  refine ⟨?_, ?_, ?_, ?_⟩
  · unfold Validator.Authorize
    cases h : v.auth k with
    | none => simp [Validator.ValidatePull, mem_peerSetAdd_self]
    | some set => simp [Validator.ValidatePull, mem_peerSetAdd_self]
  · intro h
    simp [Validator.ValidatePull, h]
  · intro set h hq
    simp [Validator.ValidatePull, h, hq]
  · unfold Validator.ValidatePull
    cases h : v.auth k with
    | none => simp
    | some set =>
      by_cases hq : q ∈ set <;> simp [hq]

/-- C2 witness: a concrete validator exercising the allow, unknown-cid and
not-authorized verdicts. -/
theorem validator_authorize_validatePull_witness :
    (((Validator.mk fun _ => none).Authorize 5 1).ValidatePull 1 ⟨5, 10⟩ 5 AllSelector
        = .allow) ∧
    ((Validator.mk fun _ => none).ValidatePull 3 ⟨5, 10⟩ 5 AllSelector = .unknownCid) ∧
    (((Validator.mk fun _ => none).Authorize 5 1).ValidatePull 3 ⟨5, 10⟩ 5 AllSelector
        = .notAuthorized) :=
  ⟨(validator_authorize_validatePull (Validator.mk fun _ => none) 5 1 1 ⟨5, 10⟩ AllSelector).1,
   (validator_authorize_validatePull (Validator.mk fun _ => none) 5 1 3 ⟨5, 10⟩ AllSelector).2.1 rfl,
   (validator_authorize_validatePull
      ((Validator.mk fun _ => none).Authorize 5 1) 5 1 3 ⟨5, 10⟩ AllSelector).2.2.1
     [1] rfl (by decide)⟩

/-- C5: the preset Global region's miner list is the concatenation of the
NorthAmerica, Europe and Oceania lists only; the Asia preset miner
f0159961 is absent from it, refuting the claim that Global is the union
of all other preset regions' miner lists. -/
theorem global_miners_omit_asia :
    global.StorageMiners =
      northAmerica.StorageMiners ++ (europe.StorageMiners ++ oceania.StorageMiners) ∧
    "f0159961" ∈ asia.StorageMiners ∧
    "f0159961" ∉ global.StorageMiners := by
  refine ⟨rfl, ?_, ?_⟩ <;> decide

/-- C6: the subscription installed by Dispatch emits exactly one provider
record, with Provider the channel recipient and PayloadCID the base CID,
when the channel status is Completed and the base CID matches the
request's payload CID; any other event emits nothing. -/
theorem dispatch_subscription_completed (r : Request) (ev : Event) (ch : ChannelState) :
    dispatchSubscriber r ev ch =
      if ch.status = .completed ∧ ch.baseCID = r.PayloadCID then
        some { Provider := ch.recipient, PayloadCID := ch.baseCID }
      else none := by
  unfold dispatchSubscriber
  by_cases hs : ch.status = .completed
  · by_cases hc : ch.baseCID = r.PayloadCID <;> simp [hs, hc]
  · simp [hs]

/-- C7: the subscription installed at construction removes the content
record for the channel base CID on an Error event whose recipient is the
local peer, and leaves the index unchanged for every other event. -/
theorem error_subscription_removes_record (hostID : PeerID) (st : Store) (ev : Event)
    (ch : ChannelState) :
    (ev.code = .error → ch.recipient = hostID →
      (newSubscriber hostID st ev ch).GetRecord ch.baseCID = .error .notFound) ∧
    (ev.code ≠ .error ∨ ch.recipient ≠ hostID →
      newSubscriber hostID st ev ch = st) := by
  constructor
  · intro he hr
    simp [newSubscriber, he, hr, Store.getRecord_removeRecord]
  · intro h
    unfold newSubscriber
    cases h with
    | inl h => simp [h]
    | inr h => simp [h]

/-- C7 witness: a concrete error event removes the record; a complete
event and an error event for another recipient leave the store intact. -/
theorem error_subscription_removes_record_witness :
    ((newSubscriber 0 (Store.PutRecord ⟨[]⟩ 9 ⟨[(KStoreID, "3")]⟩) ⟨.error⟩
        ⟨.failed, 9, 0⟩).GetRecord 9 = .error .notFound) ∧
    (newSubscriber 0 (Store.PutRecord ⟨[]⟩ 9 ⟨[(KStoreID, "3")]⟩) ⟨.complete⟩
        ⟨.completed, 9, 0⟩ = Store.PutRecord ⟨[]⟩ 9 ⟨[(KStoreID, "3")]⟩) ∧
    (newSubscriber 0 (Store.PutRecord ⟨[]⟩ 9 ⟨[(KStoreID, "3")]⟩) ⟨.error⟩
        ⟨.failed, 9, 4⟩ = Store.PutRecord ⟨[]⟩ 9 ⟨[(KStoreID, "3")]⟩) :=
  ⟨(error_subscription_removes_record 0 (Store.PutRecord ⟨[]⟩ 9 ⟨[(KStoreID, "3")]⟩)
      ⟨.error⟩ ⟨.failed, 9, 0⟩).1 rfl rfl,
   (error_subscription_removes_record 0 (Store.PutRecord ⟨[]⟩ 9 ⟨[(KStoreID, "3")]⟩)
      ⟨.complete⟩ ⟨.completed, 9, 0⟩).2 (Or.inl (by decide)),
   (error_subscription_removes_record 0 (Store.PutRecord ⟨[]⟩ 9 ⟨[(KStoreID, "3")]⟩)
      ⟨.error⟩ ⟨.failed, 9, 4⟩).2 (Or.inr (by decide))⟩

/-- C9: GetStoreID fails with a distinct error when the record is
missing, when the storeId label is missing, and when the label does not
parse as an unsigned decimal integer; otherwise it returns the decoded
store identifier. -/
theorem getStoreID_error_cases (s : Supply) (id : Cid) :
    (s.store.GetRecord id = .error .notFound →
      s.GetStoreID id = .error .recordNotFound) ∧
    (∀ rec, s.store.GetRecord id = .ok rec →
      (lookupEntry rec.Labels KStoreID = none →
        s.GetStoreID id = .error .storeIDNotFound) ∧
      (∀ sid, lookupEntry rec.Labels KStoreID = some sid →
        (parseUint10 sid = none → s.GetStoreID id = .error .parseFailed) ∧
        (∀ n, parseUint10 sid = some n → s.GetStoreID id = .ok n))) := by
  constructor
  · intro h
    simp [Supply.GetStoreID, h]
  · intro rec hrec
    constructor
    · intro hl
      simp [Supply.GetStoreID, hrec, hl]
    · intro sid hsid
      constructor
      · intro hp
        simp [Supply.GetStoreID, hrec, hsid, hp]
      · intro n hn
        simp [Supply.GetStoreID, hrec, hsid, hn]

/-- C9 witness: the success path and the three failure paths of
GetStoreID on concrete stores. -/
theorem getStoreID_error_cases_witness :
    (Supply.GetStoreID ⟨⟨0, [], ⟨fun _ _ => false⟩⟩, [], ⟨[(9, ⟨[(KStoreID, "12")]⟩)]⟩,
        ⟨fun _ => none⟩⟩ 9 = .ok 12) ∧
    (Supply.GetStoreID ⟨⟨0, [], ⟨fun _ _ => false⟩⟩, [], ⟨[]⟩,
        ⟨fun _ => none⟩⟩ 9 = .error .recordNotFound) ∧
    (Supply.GetStoreID ⟨⟨0, [], ⟨fun _ _ => false⟩⟩, [], ⟨[(9, ⟨[(KSize, "12")]⟩)]⟩,
        ⟨fun _ => none⟩⟩ 9 = .error .storeIDNotFound) ∧
    (Supply.GetStoreID ⟨⟨0, [], ⟨fun _ _ => false⟩⟩, [], ⟨[(9, ⟨[(KStoreID, "x2")]⟩)]⟩,
        ⟨fun _ => none⟩⟩ 9 = .error .parseFailed) :=
  ⟨((getStoreID_error_cases ⟨⟨0, [], ⟨fun _ _ => false⟩⟩, [], ⟨[(9, ⟨[(KStoreID, "12")]⟩)]⟩,
        ⟨fun _ => none⟩⟩ 9).2 ⟨[(KStoreID, "12")]⟩ rfl).2 "12" rfl |>.2 12 (by decide),
   (getStoreID_error_cases ⟨⟨0, [], ⟨fun _ _ => false⟩⟩, [], ⟨[]⟩,
        ⟨fun _ => none⟩⟩ 9).1 rfl,
   ((getStoreID_error_cases ⟨⟨0, [], ⟨fun _ _ => false⟩⟩, [], ⟨[(9, ⟨[(KSize, "12")]⟩)]⟩,
        ⟨fun _ => none⟩⟩ 9).2 ⟨[(KSize, "12")]⟩ rfl).1 (by decide),
   ((getStoreID_error_cases ⟨⟨0, [], ⟨fun _ _ => false⟩⟩, [], ⟨[(9, ⟨[(KStoreID, "x2")]⟩)]⟩,
        ⟨fun _ => none⟩⟩ 9).2 ⟨[(KStoreID, "x2")]⟩ rfl).2 "x2" rfl |>.1 (by decide)⟩

/-- C1: a single Dispatch performs at most MaxReceiverCount authorization
writes (all for the request's payload CID) and at most MaxReceiverCount
outbound sends, whatever the connection set; when more peers qualify, the
eligible list is truncated to its first MaxReceiverCount elements. -/
theorem dispatch_receiver_cap (s : Supply) (net : NetEnv) (r : Request) :
    (s.Dispatch net r).authorizations.length ≤ MaxReceiverCount ∧
    (s.Dispatch net r).sends.length ≤ MaxReceiverCount ∧
    (∀ a ∈ (s.Dispatch net r).authorizations, a.1 = r.PayloadCID) ∧
    (MaxReceiverCount < s.eligiblePeers.length →
      (s.Dispatch net r).authorizations.map Prod.snd =
        s.eligiblePeers.take MaxReceiverCount ∧
      (s.Dispatch net r).sends.map Prod.fst =
        s.eligiblePeers.take MaxReceiverCount) := by
  by_cases h0 : s.eligiblePeers.length = 0
  · have hsel : s.selectProviders = .error .noPeers := by
      simp only [Supply.selectProviders]
      rw [if_pos h0]
    unfold Supply.Dispatch
    rw [hsel]
    refine ⟨Nat.zero_le _, Nat.zero_le _, ?_, ?_⟩
    · intro a ha
      exact absurd ha (List.not_mem_nil a)
    · intro hcontra
      omega
  · by_cases h7 : s.eligiblePeers.length > MaxReceiverCount
    · have hsel : s.selectProviders = .ok (s.eligiblePeers.take MaxReceiverCount) := by
        simp only [Supply.selectProviders]
        rw [if_neg h0, if_pos h7]
      unfold Supply.Dispatch
      rw [hsel]
      refine ⟨?_, ?_, ?_, fun _ => ⟨?_, ?_⟩⟩
      · show ((s.eligiblePeers.take MaxReceiverCount).map
            fun p => (r.PayloadCID, p)).length ≤ MaxReceiverCount
        simp [List.length_take]
      · show (Supply.sendAllRequests net r
            (s.eligiblePeers.take MaxReceiverCount)).length ≤ MaxReceiverCount
        simp [Supply.sendAllRequests, List.length_take]
      · show ∀ a ∈ (s.eligiblePeers.take MaxReceiverCount).map
            fun p => (r.PayloadCID, p), a.1 = r.PayloadCID
        intro a ha
        rw [List.mem_map] at ha
        obtain ⟨q, _, hq⟩ := ha
        rw [← hq]
      · show ((s.eligiblePeers.take MaxReceiverCount).map
            (fun p => (r.PayloadCID, p))).map Prod.snd =
          s.eligiblePeers.take MaxReceiverCount
        simp
      · exact sendAllRequests_targets net r _
    · have hsel : s.selectProviders = .ok s.eligiblePeers := by
        simp only [Supply.selectProviders]
        rw [if_neg h0, if_neg h7]
      unfold Supply.Dispatch
      rw [hsel]
      refine ⟨?_, ?_, ?_, ?_⟩
      · show (s.eligiblePeers.map fun p => (r.PayloadCID, p)).length ≤ MaxReceiverCount
        simpa using Nat.le_of_not_lt h7
      · show (Supply.sendAllRequests net r s.eligiblePeers).length ≤ MaxReceiverCount
        simpa [Supply.sendAllRequests] using Nat.le_of_not_lt h7
      · show ∀ a ∈ s.eligiblePeers.map fun p => (r.PayloadCID, p), a.1 = r.PayloadCID
        intro a ha
        rw [List.mem_map] at ha
        obtain ⟨q, _, hq⟩ := ha
        rw [← hq]
      · intro hcontra
        exact absurd hcontra h7

/-- C1 witness: nine eligible peers are cut down to the first seven, each
authorized for the payload CID. -/
theorem dispatch_receiver_cap_witness :
    MaxReceiverCount <
      (Supply.eligiblePeers ⟨⟨0, [⟨1⟩, ⟨2⟩, ⟨3⟩, ⟨4⟩, ⟨5⟩, ⟨6⟩, ⟨7⟩, ⟨8⟩, ⟨9⟩],
        ⟨fun _ _ => true⟩⟩, [global], ⟨[]⟩, ⟨fun _ => none⟩⟩).length ∧
    ((Supply.Dispatch ⟨⟨0, [⟨1⟩, ⟨2⟩, ⟨3⟩, ⟨4⟩, ⟨5⟩, ⟨6⟩, ⟨7⟩, ⟨8⟩, ⟨9⟩],
        ⟨fun _ _ => true⟩⟩, [global], ⟨[]⟩, ⟨fun _ => none⟩⟩
        ⟨fun _ => true, fun _ => true⟩ ⟨42, 10⟩).authorizations.map Prod.snd =
      [1, 2, 3, 4, 5, 6, 7]) :=
  ⟨by decide,
   ((dispatch_receiver_cap ⟨⟨0, [⟨1⟩, ⟨2⟩, ⟨3⟩, ⟨4⟩, ⟨5⟩, ⟨6⟩, ⟨7⟩, ⟨8⟩, ⟨9⟩],
        ⟨fun _ _ => true⟩⟩, [global], ⟨[]⟩, ⟨fun _ => none⟩⟩
        ⟨fun _ => true, fun _ => true⟩ ⟨42, 10⟩).2.2.2 (by decide)).1.trans (by decide)⟩

/-- C3: when no connection survives receiver selection (no connections at
all, or no connected peer supports any region protocol), Dispatch returns
the no-peers error, a zero count, and performs no authorization write and
no send. -/
theorem dispatch_no_eligible_peers (s : Supply) (net : NetEnv) (r : Request)
    (h : s.h.conns = [] ∨ ∀ c ∈ s.h.conns,
        (protoRegions RequestProtocol s.regions).filter
          (fun pr => s.h.peerstore.supports c.remotePeer pr) = []) :
    (s.Dispatch net r).err = some .noPeers ∧
    (s.Dispatch net r).response.Count = 0 ∧
    (s.Dispatch net r).authorizations = [] ∧
    (s.Dispatch net r).sends = [] := by
  have he : s.eligiblePeers = [] := by
    cases h with
    | inl h => simp [Supply.eligiblePeers, h]
    | inr h =>
      unfold Supply.eligiblePeers
      rw [List.filterMap_eq_nil_iff]
      intro c hc
      by_cases hid : c.remotePeer = s.h.id
      · simp [hid]
      · simp [hid, h c hc]
  unfold Supply.Dispatch Supply.selectProviders
  simp [he]

/-- C3 witness: a host with no connections returns no-peers with count
zero and no effects. -/
theorem dispatch_no_eligible_peers_witness :
    ((Supply.Dispatch ⟨⟨0, [], ⟨fun _ _ => true⟩⟩, [global], ⟨[]⟩, ⟨fun _ => none⟩⟩
        ⟨fun _ => true, fun _ => true⟩ ⟨42, 1⟩).err = some .noPeers) ∧
    ((Supply.Dispatch ⟨⟨0, [], ⟨fun _ _ => true⟩⟩, [global], ⟨[]⟩, ⟨fun _ => none⟩⟩
        ⟨fun _ => true, fun _ => true⟩ ⟨42, 1⟩).response.Count = 0) :=
  ⟨(dispatch_no_eligible_peers ⟨⟨0, [], ⟨fun _ _ => true⟩⟩, [global], ⟨[]⟩,
      ⟨fun _ => none⟩⟩ ⟨fun _ => true, fun _ => true⟩ ⟨42, 1⟩ (Or.inl rfl)).1,
   (dispatch_no_eligible_peers ⟨⟨0, [], ⟨fun _ _ => true⟩⟩, [global], ⟨[]⟩,
      ⟨fun _ => none⟩⟩ ⟨fun _ => true, fun _ => true⟩ ⟨42, 1⟩ (Or.inl rfl)).2.1⟩

/-- C4: on a decoded request, HandleRequest closes the stream, and: an
index-write failure aborts with no pull and an unchanged index; on a
successful write the index holds the record carrying the fresh store
identifier and the advertised size, the pull opens from the sender with
the payload CID as root and the recursive all-links selector, and a pull
failure still leaves the record present. -/
theorem handleRequest_steps (env : HandlerEnv) (st : Store) (sender : PeerID) (req : Request)
    (h : env.readResult = some req) :
    ((handler.HandleRequest env st sender).closed = true) ∧
    (env.putOk = false →
      handler.HandleRequest env st sender = ⟨st, none, true⟩) ∧
    (env.putOk = true →
      ((handler.HandleRequest env st sender).index.GetRecord req.PayloadCID =
        .ok ⟨[(KStoreID, Nat.repr env.nextStoreID), (KSize, Nat.repr req.Size)]⟩) ∧
      (env.pullOk = true →
        (handler.HandleRequest env st sender).pull =
          some ⟨sender, req.PayloadCID, AllSelector⟩) ∧
      (env.pullOk = false →
        (handler.HandleRequest env st sender).pull = none)) := by
  unfold handler.HandleRequest
  rw [h]
  refine ⟨?_, ?_, ?_⟩
  · by_cases hp : env.putOk <;> by_cases hl : env.pullOk <;> simp [hp, hl]
  · intro hp
    simp [hp]
  · intro hp
    refine ⟨?_, ?_, ?_⟩
    · by_cases hl : env.pullOk <;> simp [hp, hl, Store.getRecord_putRecord]
    · intro hl
      simp [hp, hl]
    · intro hl
      simp [hp, hl]

/-- C4 witness: a concrete request through the success path, the
index-write failure path, and the pull failure path. -/
theorem handleRequest_steps_witness :
    ((handler.HandleRequest ⟨some ⟨9, 100⟩, 5, true, true⟩ ⟨[]⟩ 7).pull =
      some ⟨7, 9, AllSelector⟩) ∧
    ((handler.HandleRequest ⟨some ⟨9, 100⟩, 5, true, true⟩ ⟨[]⟩ 7).index.GetRecord 9 =
      .ok ⟨[(KStoreID, "5"), (KSize, "100")]⟩) ∧
    (handler.HandleRequest ⟨some ⟨9, 100⟩, 5, false, true⟩ ⟨[]⟩ 7 = ⟨⟨[]⟩, none, true⟩) ∧
    ((handler.HandleRequest ⟨some ⟨9, 100⟩, 5, true, false⟩ ⟨[]⟩ 7).pull = none) ∧
    ((handler.HandleRequest ⟨some ⟨9, 100⟩, 5, true, false⟩ ⟨[]⟩ 7).index.GetRecord 9 =
      .ok ⟨[(KStoreID, "5"), (KSize, "100")]⟩) :=
  ⟨((handleRequest_steps ⟨some ⟨9, 100⟩, 5, true, true⟩ ⟨[]⟩ 7 ⟨9, 100⟩ rfl).2.2 rfl).2.1 rfl,
   ((handleRequest_steps ⟨some ⟨9, 100⟩, 5, true, true⟩ ⟨[]⟩ 7 ⟨9, 100⟩ rfl).2.2 rfl).1,
   (handleRequest_steps ⟨some ⟨9, 100⟩, 5, false, true⟩ ⟨[]⟩ 7 ⟨9, 100⟩ rfl).2.1 rfl,
   ((handleRequest_steps ⟨some ⟨9, 100⟩, 5, true, false⟩ ⟨[]⟩ 7 ⟨9, 100⟩ rfl).2.2 rfl).2.2 rfl,
   ((handleRequest_steps ⟨some ⟨9, 100⟩, 5, true, false⟩ ⟨[]⟩ 7 ⟨9, 100⟩ rfl).2.2 rfl).1⟩

/-- C8: the fan-out attempts a send to every selected peer, in order,
whatever the per-peer stream outcomes, and the response count equals the
number of selected peers, independent of how many writes succeed. -/
theorem dispatch_fanout_best_effort (s : Supply) (net net2 : NetEnv) (r : Request)
    (providers : List PeerID) (h : s.selectProviders = .ok providers) :
    ((s.Dispatch net r).sends.map Prod.fst = providers) ∧
    ((s.Dispatch net r).response.Count = providers.length) ∧
    ((s.Dispatch net r).response.Count = (s.Dispatch net2 r).response.Count) := by
  unfold Supply.Dispatch
  rw [h]
  exact ⟨sendAllRequests_targets net r providers, rfl, rfl⟩

/-- C8 witness: with the stream open failing for the first of two
selected peers, the second peer is still sent to and the count stays 2. -/
theorem dispatch_fanout_best_effort_witness :
    (Supply.selectProviders ⟨⟨0, [⟨1⟩, ⟨2⟩], ⟨fun _ _ => true⟩⟩, [global], ⟨[]⟩,
        ⟨fun _ => none⟩⟩ = .ok [1, 2]) ∧
    ((Supply.Dispatch ⟨⟨0, [⟨1⟩, ⟨2⟩], ⟨fun _ _ => true⟩⟩, [global], ⟨[]⟩,
        ⟨fun _ => none⟩⟩ ⟨fun p => decide (p ≠ 1), fun _ => true⟩ ⟨42, 10⟩).sends =
      [(1, .openFailed), (2, .sent)]) ∧
    ((Supply.Dispatch ⟨⟨0, [⟨1⟩, ⟨2⟩], ⟨fun _ _ => true⟩⟩, [global], ⟨[]⟩,
        ⟨fun _ => none⟩⟩ ⟨fun p => decide (p ≠ 1), fun _ => true⟩ ⟨42, 10⟩).response.Count
      = 2) :=
  ⟨rfl,
   by decide,
   ((dispatch_fanout_best_effort ⟨⟨0, [⟨1⟩, ⟨2⟩], ⟨fun _ _ => true⟩⟩, [global], ⟨[]⟩,
      ⟨fun _ => none⟩⟩ ⟨fun p => decide (p ≠ 1), fun _ => true⟩
      ⟨fun _ => true, fun _ => true⟩ ⟨42, 10⟩ [1, 2] rfl).2.1).trans rfl⟩

/-- C10: receiver selection counts connections, not distinct peers: a
peer with k live connections appears k times among the eligible peers,
and when at most MaxReceiverCount connections qualify it receives k
authorization writes and k sends, contributing k to the count. -/
theorem selection_counts_connections (s : Supply) (net : NetEnv) (r : Request) (p : PeerID)
    (hp : p ≠ s.h.id)
    (hs : ((protoRegions RequestProtocol s.regions).filter
        (fun pr => s.h.peerstore.supports p pr)).length ≠ 0) :
    (s.eligiblePeers.count p =
      s.h.conns.countP fun c => decide (c.remotePeer = p)) ∧
    (s.eligiblePeers ≠ [] → s.eligiblePeers.length ≤ MaxReceiverCount →
      (((s.Dispatch net r).authorizations.map Prod.snd).count p =
        s.h.conns.countP fun c => decide (c.remotePeer = p)) ∧
      (((s.Dispatch net r).sends.map Prod.fst).count p =
        s.h.conns.countP fun c => decide (c.remotePeer = p)) ∧
      (s.Dispatch net r).response.Count = s.eligiblePeers.length) := by
  have hcount : s.eligiblePeers.count p =
      s.h.conns.countP fun c => decide (c.remotePeer = p) := by
    unfold Supply.eligiblePeers
    apply count_filterMap_of
    · intro c hc
      simp only
      rw [hc]
      simp [hp, hs]
    · intro c hc
      simp only
      by_cases hid : c.remotePeer = s.h.id
      · simp [hid]
      · by_cases hl : ((protoRegions RequestProtocol s.regions).filter
            (fun pr => s.h.peerstore.supports c.remotePeer pr)).length = 0
        · simp [hid, hl]
        · simp [hid, hl, hc]
  refine ⟨hcount, ?_⟩
  intro hne hle
  have h0 : ¬(s.eligiblePeers.length = 0) := fun h' =>
    hne (List.length_eq_zero.mp h')
  have h7 : ¬(s.eligiblePeers.length > MaxReceiverCount) := Nat.not_lt.mpr hle
  have hsel : s.selectProviders = .ok s.eligiblePeers := by
    simp only [Supply.selectProviders]
    rw [if_neg h0, if_neg h7]
  unfold Supply.Dispatch
  rw [hsel]
  refine ⟨?_, ?_, rfl⟩
  · show ((s.eligiblePeers.map fun q => (r.PayloadCID, q)).map Prod.snd).count p =
      s.h.conns.countP fun c => decide (c.remotePeer = p)
    have hm : (s.eligiblePeers.map fun q => (r.PayloadCID, q)).map Prod.snd =
        s.eligiblePeers := by
      simp
    rw [hm, hcount]
  · show ((Supply.sendAllRequests net r s.eligiblePeers).map Prod.fst).count p =
      s.h.conns.countP fun c => decide (c.remotePeer = p)
    rw [sendAllRequests_targets, hcount]

/-- C10 witness: two simultaneous connections to the same peer select it
twice: two authorization writes, two sends, and a count of 2. -/
theorem selection_counts_connections_witness :
    ((Supply.eligiblePeers ⟨⟨0, [⟨1⟩, ⟨1⟩], ⟨fun _ _ => true⟩⟩, [global], ⟨[]⟩,
        ⟨fun _ => none⟩⟩).count 1 = 2) ∧
    (((Supply.Dispatch ⟨⟨0, [⟨1⟩, ⟨1⟩], ⟨fun _ _ => true⟩⟩, [global], ⟨[]⟩,
        ⟨fun _ => none⟩⟩ ⟨fun _ => true, fun _ => true⟩
        ⟨42, 10⟩).authorizations.map Prod.snd).count 1 = 2) ∧
    (((Supply.Dispatch ⟨⟨0, [⟨1⟩, ⟨1⟩], ⟨fun _ _ => true⟩⟩, [global], ⟨[]⟩,
        ⟨fun _ => none⟩⟩ ⟨fun _ => true, fun _ => true⟩
        ⟨42, 10⟩).sends.map Prod.fst).count 1 = 2) ∧
    ((Supply.Dispatch ⟨⟨0, [⟨1⟩, ⟨1⟩], ⟨fun _ _ => true⟩⟩, [global], ⟨[]⟩,
        ⟨fun _ => none⟩⟩ ⟨fun _ => true, fun _ => true⟩ ⟨42, 10⟩).response.Count = 2) :=
  ⟨((selection_counts_connections ⟨⟨0, [⟨1⟩, ⟨1⟩], ⟨fun _ _ => true⟩⟩, [global], ⟨[]⟩,
      ⟨fun _ => none⟩⟩ ⟨fun _ => true, fun _ => true⟩ ⟨42, 10⟩ 1
      (by decide) (by decide)).1).trans (by decide),
   (((selection_counts_connections ⟨⟨0, [⟨1⟩, ⟨1⟩], ⟨fun _ _ => true⟩⟩, [global], ⟨[]⟩,
      ⟨fun _ => none⟩⟩ ⟨fun _ => true, fun _ => true⟩ ⟨42, 10⟩ 1
      (by decide) (by decide)).2 (by decide) (by decide)).1).trans (by decide),
   (((selection_counts_connections ⟨⟨0, [⟨1⟩, ⟨1⟩], ⟨fun _ _ => true⟩⟩, [global], ⟨[]⟩,
      ⟨fun _ => none⟩⟩ ⟨fun _ => true, fun _ => true⟩ ⟨42, 10⟩ 1
      (by decide) (by decide)).2 (by decide) (by decide)).2.1).trans (by decide),
   (((selection_counts_connections ⟨⟨0, [⟨1⟩, ⟨1⟩], ⟨fun _ _ => true⟩⟩, [global], ⟨[]⟩,
      ⟨fun _ => none⟩⟩ ⟨fun _ => true, fun _ => true⟩ ⟨42, 10⟩ 1
      (by decide) (by decide)).2 (by decide) (by decide)).2.2).trans (by decide)⟩

end Pop
